import Mathlib

/-!
Verification of the template-variable derivation logic of `mapboxgl/viz.py`
(mapboxgl-jupyter).  Python values appearing in data rows and stop lists are
modelled by `PyScalar`; data rows (flat JSON objects) by association lists with
string keys; Python exceptions by `PyErr` together with `Except`.  Machinery
that the claims depend on — the token check of `MapViz.__init__`, the iframe
quote replacement of `MapViz.as_iframe`, the option assembly of
`MapViz.create_html` plus each variant's `add_unique_template_variables`, and
`ChoroplethViz.generate_vector_color_map` — is translated function by function
from the source.
-/

/-- Scalar values carried by data rows and stop lists (Python strings and
numbers; numbers are modelled by rationals). -/
inductive PyScalar where
  | str (s : String)
  | int (n : Int)
  | rat (q : ℚ)
deriving DecidableEq, Repr

/-- Python exceptions raised by the code under study: `KeyError` from a dict
subscript (the key may be `None`, hence `Option String`), `TokenError` from the
credential check, `TypeError` from subscripting `None`, and `IndexError` from
subscripting an empty list. -/
inductive PyErr where
  | keyError (k : Option String)
  | tokenError (msg : String)
  | typeError
  | indexError
deriving DecidableEq, Repr

/-- A data row: a flat JSON-like object, i.e. a finite map from string keys to
scalar values (Python dict semantics: at most one binding per key matters, the
first binding in the list is the one in force). -/
abbrev Row := List (String × PyScalar)

/-- A stop list: ordered `(inputValue, outputValue)` pairs. -/
abbrev PyStops := List (PyScalar × PyScalar)

/-- Dict membership lookup: the value bound to `k` in `row`, if any. -/
def dictGet (row : Row) (k : String) : Option PyScalar :=
  (row.find? (fun kv => kv.1 = k)).map Prod.snd

/-- Python dict subscript `row[k]` where `k` may be `None` (all row keys are
strings, so subscripting with `None` always raises): returns the bound value or
raises `KeyError`. -/
def getItem (row : Row) (k : Option String) : Except PyErr PyScalar :=
  match k with
  | some s =>
    match dictGet row s with
    | some v => Except.ok v
    | none => Except.error (PyErr.keyError (some s))
  | none => Except.error (PyErr.keyError none)

/-- Modelled from the spec: `color_map` is imported by `viz.py` from
`mapboxgl.utils`, whose source is not part of this snapshot.  Per the spec it
is a linear scan of the stop list for the first entry whose key equals the
lookup value, returning the matched output, and the default when no stop
matches; per the spec's error-handling section, a malformed (absent) stop list
is also resolved to the default rather than raising. -/
def color_map (lookup : PyScalar) (color_stops : Option PyStops)
    (default_color : PyScalar) : PyScalar :=
  match color_stops with
  | none => default_color
  | some stops =>
    match stops.find? (fun st => st.1 = lookup) with
    | some st => st.2
    | none => default_color

/-- The per-row color resolution performed inside the loop of
`ChoroplethViz.generate_vector_color_map`:
`color = color_map(row[self.color_property], self.color_stops,
self.color_default)` — the dict subscript may raise `KeyError`. -/
def row_color (row : Row) (color_property : Option String)
    (color_stops : Option PyStops) (color_default : PyScalar) :
    Except PyErr PyScalar :=
  (getItem row color_property).map (fun v => color_map v color_stops color_default)

/-- `ChoroplethViz.generate_vector_color_map`: walks the data rows in order and
emits `[row[data_join_property], color]` pairs, where `color` is the resolved
color of the row; either dict subscript propagates its `KeyError`. -/
def generate_vector_color_map :
    List Row → Option String → Option PyStops → PyScalar → Option String →
    Except PyErr (List (PyScalar × PyScalar))
  | [], _, _, _, _ => Except.ok []
  | row :: rest, cp, stops, dflt, djp => do
    let color ← row_color row cp stops dflt
    let j ← getItem row djp
    let tail ← generate_vector_color_map rest cp stops dflt djp
    pure ((j, color) :: tail)

/-- Definition following the spec's words (`resolveColor`): scan the stops for
the first entry whose key equals `row[property]`; return the matched output, or
the default if no stop matches or the property is missing from the row. -/
def resolveColor (row : Row) (property : String) (stops : PyStops)
    (dflt : PyScalar) : PyScalar :=
  match dictGet row property with
  | some v =>
    match stops.find? (fun st => st.1 = v) with
    | some st => st.2
    | none => dflt
  | none => dflt

/-- The dash-interval selection at the head of
`ChoroplethViz.add_unique_template_variables`: the value stored into
`self.line_dash_array`. -/
def line_dash_array (line_stroke : String) : List ℚ :=
  if line_stroke = "dashed" ∨ line_stroke = "--" then [6, 4]
  else if line_stroke = "dotted" ∨ line_stroke = ":" then [1/2, 4]
  else if line_stroke = "dash dot" ∨ line_stroke = "-." then [6, 4, 1/2, 4]
  else if line_stroke = "solid" ∨ line_stroke = "-" then [1, 0]
  else [1, 0]

/-- Python `str.startswith`: prefix test on the character sequences. -/
def pyStartsWith (s pre : String) : Bool :=
  pre.data.isPrefixOf s.data

/-- Substring test: some suffix of `s` begins with `sub`. -/
def strContains (s sub : String) : Bool :=
  s.data.tails.any (fun t => sub.data.isPrefixOf t)

/-- Python `str.replace(old, new)` specialised to one-character arguments, as
used in `MapViz.as_iframe`. -/
def pyReplaceChar (s : String) (oldC newC : Char) : String :=
  String.mk (s.data.map (fun c => if c = oldC then newC else c))

/-- Values stored in the flat option map handed to the rendering template.
`json d` stands for `json.dumps(d, ensure_ascii=False)`: the serialized form of
the data, represented by the data itself (serialization is injective and the
claims never inspect the string). -/
inductive TVal where
  | none
  | str (s : String)
  | num (q : ℚ)
  | numList (l : List ℚ)
  | scalar (v : PyScalar)
  | stops (l : PyStops)
  | json (d : List Row)
deriving DecidableEq, Repr

/-- An `Option String` option value: Python `None` or a string. -/
def optStr : Option String → TVal
  | none => TVal.none
  | some s => TVal.str s

/-- An optional stop-list option value: Python `None` or a stop list. -/
def optStops : Option PyStops → TVal
  | none => TVal.none
  | some l => TVal.stops l

/-- The option map built by `create_html` and mutated by `dict.update`: an
ordered list of writes, where the binding in force for a key is the last write
to it. -/
def optGet : List (String × TVal) → String → Option TVal
  | [], _ => none
  | kv :: rest, k =>
    match optGet rest k with
    | some v => some v
    | none => if kv.1 = k then some kv.2 else none

def GL_JS_VERSION : String := "v0.44.1"

/-- The base attribute set stored by `MapViz.__init__` (after a successful
token check). -/
structure MapVizBase where
  data : List Row
  access_token : String
  center : ℚ × ℚ
  below_layer : String
  opacity : ℚ
  div_id : String
  height : String
  style_url : String
  width : String
  zoom : ℚ
  min_zoom : ℚ
  max_zoom : ℚ
  label_property : Option String
deriving Repr

/-- The message of the `TokenError` raised by `MapViz.__init__`. -/
def tokenErrorMessage : String :=
  "Mapbox access token must be public (pk). Please sign up at https://www.mapbox.com/signup/ to get a public token. If you already have an account, you can retreive your token at https://www.mapbox.com/account/."

/-- `MapViz.__init__`: resolve the token (explicit argument, else the
`MAPBOX_ACCESS_TOKEN` environment value, modelled as the `envToken` argument),
check the public `pk` prefix, and store the fields.  `label_property` starts
as `None`. -/
def MapViz_init (data : List Row) (access_token : Option String)
    (envToken : String) (center : ℚ × ℚ) (below_layer : String) (opacity : ℚ)
    (div_id : String) (height : String) (style_url : String) (width : String)
    (zoom : ℚ) (min_zoom : ℚ) (max_zoom : ℚ) : Except PyErr MapVizBase :=
  let token := access_token.getD envToken
  if pyStartsWith token "pk" then
    Except.ok
      { data := data, access_token := token, center := center,
        below_layer := below_layer, opacity := opacity, div_id := div_id,
        height := height, style_url := style_url, width := width, zoom := zoom,
        min_zoom := min_zoom, max_zoom := max_zoom, label_property := none }
  else
    Except.error (PyErr.tokenError tokenErrorMessage)

/-- The universal options assembled by `MapViz.create_html` before the variant
hook runs, in write order; the `labelProperty` binding is the explicit `None`
marker when `label_property` is unset and the brace-wrapped property name
otherwise. -/
def baseOptions (b : MapVizBase) : List (String × TVal) :=
  [ ("gl_js_version", TVal.str GL_JS_VERSION),
    ("accessToken", TVal.str b.access_token),
    ("div_id", TVal.str b.div_id),
    ("styleUrl", TVal.str b.style_url),
    ("center", TVal.numList [b.center.1, b.center.2]),
    ("zoom", TVal.num b.zoom),
    ("geojson_data", TVal.json b.data),
    ("belowLayer", TVal.str b.below_layer),
    ("opacity", TVal.num b.opacity),
    ("minzoom", TVal.num b.min_zoom),
    ("maxzoom", TVal.num b.max_zoom),
    ("labelProperty",
      match b.label_property with
      | none => TVal.none
      | some lp => TVal.str ("\x7b" ++ lp ++ "\x7d")) ]

/-- `MapViz.create_html` up to the hand-off to the external template renderer:
the assembled option map (universal options, then the variant's
`add_unique_template_variables` writes).  The variant hook may raise (vector
choropleth join, clustered-circle first-stop read), in which case the error
propagates. -/
def create_html (b : MapVizBase)
    (uniqueVars : Except PyErr (List (String × TVal))) :
    Except PyErr (List (String × TVal)) := do
  let u ← uniqueVars
  pure (baseOptions b ++ u)

/-- `CircleViz.add_unique_template_variables`. -/
def circle_unique_vars (data : List Row) (color_property : Option String)
    (color_function_type : String) (color_stops : Option PyStops)
    (color_default : PyScalar) : List (String × TVal) :=
  [ ("geojson_data", TVal.json data),
    ("colorProperty", optStr color_property),
    ("colorType", TVal.str color_function_type),
    ("colorStops", optStops color_stops),
    ("defaultColor", TVal.scalar color_default) ]

/-- `GraduatedCircleViz.add_unique_template_variables`. -/
def graduated_circle_unique_vars (color_property : Option String)
    (color_stops : Option PyStops) (color_function_type : String)
    (radius_function_type : String) (color_default : PyScalar)
    (radius_default : TVal) (radius_property : Option String)
    (radius_stops : Option PyStops) : List (String × TVal) :=
  [ ("colorProperty", optStr color_property),
    ("colorStops", optStops color_stops),
    ("colorType", TVal.str color_function_type),
    ("radiusType", TVal.str radius_function_type),
    ("defaultColor", TVal.scalar color_default),
    ("defaultRadius", radius_default),
    ("radiusProperty", optStr radius_property),
    ("radiusStops", optStops radius_stops) ]

/-- `HeatmapViz.add_unique_template_variables`. -/
def heatmap_unique_vars (color_stops : Option PyStops)
    (radius_stops : Option PyStops) (weight_property : Option String)
    (weight_stops : Option PyStops) : List (String × TVal) :=
  [ ("colorStops", optStops color_stops),
    ("radiusStops", optStops radius_stops),
    ("weightProperty", optStr weight_property),
    ("weightStops", optStops weight_stops) ]

/-- `ClusteredCircleViz.add_unique_template_variables`: reading
`self.color_stops[0][1]` raises `TypeError` when `color_stops` is `None` and
`IndexError` when it is the empty list. -/
def clustered_circle_unique_vars (color_stops : Option PyStops)
    (radius_stops : Option PyStops) (clusterRadius clusterMaxZoom : ℚ) :
    Except PyErr (List (String × TVal)) :=
  match color_stops with
  | none => Except.error PyErr.typeError
  | some stops =>
    match stops with
    | [] => Except.error PyErr.indexError
    | first :: _ =>
      Except.ok
        [ ("colorStops", TVal.stops stops),
          ("baseColor", TVal.scalar first.2),
          ("radiusStops", optStops radius_stops),
          ("clusterRadius", TVal.num clusterRadius),
          ("clusterMaxZoom", TVal.num clusterMaxZoom) ]

/-- The attribute set of a constructed `ClusteredCircleViz`. -/
structure ClusteredCircleViz where
  base : MapVizBase
  color_stops : Option PyStops
  radius_stops : Option PyStops
  clusterRadius : ℚ
  clusterMaxZoom : ℚ
deriving Repr

/-- `ClusteredCircleViz.__init__`: the base constructor's token check runs;
the variant stores its stop lists and clustering parameters without any
further validation. -/
def ClusteredCircleViz_init (data : List Row) (access_token : Option String)
    (envToken : String) (center : ℚ × ℚ) (below_layer : String) (opacity : ℚ)
    (div_id : String) (height : String) (style_url : String) (width : String)
    (zoom : ℚ) (min_zoom : ℚ) (max_zoom : ℚ) (color_stops : Option PyStops)
    (radius_stops : Option PyStops) (cluster_radius cluster_maxzoom : ℚ) :
    Except PyErr ClusteredCircleViz := do
  let b ← MapViz_init data access_token envToken center below_layer opacity
    div_id height style_url width zoom min_zoom max_zoom
  pure { base := b, color_stops := color_stops, radius_stops := radius_stops,
         clusterRadius := cluster_radius, clusterMaxZoom := cluster_maxzoom }

/-- `ClusteredCircleViz.create_html`: the assembled option map. -/
def ClusteredCircleViz.createHtml (viz : ClusteredCircleViz) :
    Except PyErr (List (String × TVal)) :=
  create_html viz.base
    (clustered_circle_unique_vars viz.color_stops viz.radius_stops
      viz.clusterRadius viz.clusterMaxZoom)

/-- The attribute set of a constructed `ChoroplethViz`. -/
structure ChoroplethViz where
  base : MapVizBase
  vector_url : Option String
  vector_layer_name : Option String
  vector_join_property : Option String
  data_join_property : Option String
  color_property : Option String
  color_stops : Option PyStops
  color_default : PyScalar
  color_function_type : String
  line_color : String
  line_stroke : String
  line_width : ℚ
  template : String
  vector_source : Bool
deriving Repr

/-- `ChoroplethViz.__init__` after the base constructor has produced `b`:
select the vector template and set the `vector_source` flag exactly when both
`vector_url` and `vector_layer_name` are not `None`; store the remaining
fields (including `label_property`, written onto the base attribute set). -/
def ChoroplethViz_init (b : MapVizBase)
    (vector_url vector_layer_name vector_join_property data_join_property :
      Option String)
    (label_property : Option String) (color_property : Option String)
    (color_stops : Option PyStops) (color_default : PyScalar)
    (color_function_type : String) (line_color : String) (line_stroke : String)
    (line_width : ℚ) : ChoroplethViz :=
  { base := { b with label_property := label_property },
    vector_url := vector_url,
    vector_layer_name := vector_layer_name,
    vector_join_property := vector_join_property,
    data_join_property := data_join_property,
    color_property := color_property,
    color_stops := color_stops,
    color_default := color_default,
    color_function_type := color_function_type,
    line_color := line_color,
    line_stroke := line_stroke,
    line_width := line_width,
    template :=
      if vector_url.isSome && vector_layer_name.isSome then "vector_choropleth"
      else "choropleth",
    vector_source := vector_url.isSome && vector_layer_name.isSome }

/-- `ChoroplethViz.add_unique_template_variables`: the common choropleth
writes, then — only when `vector_source` is set — the vector-join writes
(whose `vectorColorStops` value comes from `generate_vector_color_map` and may
raise), and otherwise the GeoJSON serialization write. -/
def choropleth_unique_vars (viz : ChoroplethViz) :
    Except PyErr (List (String × TVal)) :=
  let common : List (String × TVal) :=
    [ ("colorStops", optStops viz.color_stops),
      ("colorProperty", optStr viz.color_property),
      ("colorType", TVal.str viz.color_function_type),
      ("defaultColor", TVal.scalar viz.color_default),
      ("lineColor", TVal.str viz.line_color),
      ("lineDashArray", TVal.numList (line_dash_array viz.line_stroke)),
      ("lineStroke", TVal.str viz.line_stroke),
      ("lineWidth", TVal.num viz.line_width) ]
  if viz.vector_source then do
    let vstops ← generate_vector_color_map viz.base.data viz.color_property
      viz.color_stops viz.color_default viz.data_join_property
    pure (common ++
      [ ("vectorUrl", optStr viz.vector_url),
        ("vectorLayer", optStr viz.vector_layer_name),
        ("vectorColorStops", TVal.stops vstops),
        ("vectorJoinColorProperty", optStr viz.vector_join_property),
        ("joinData", TVal.json viz.base.data),
        ("dataJoinProperty", optStr viz.data_join_property) ])
  else
    pure (common ++ [ ("geojson_data", TVal.json viz.base.data) ])

/-- `ChoroplethViz.create_html`: the assembled option map. -/
def ChoroplethViz.createHtml (viz : ChoroplethViz) :
    Except PyErr (List (String × TVal)) :=
  create_html viz.base (choropleth_unique_vars viz)

/-- The single-quote character, written via its code point. -/
def singleQuote : Char := Char.ofNat 39

/-- The double-quote character, written via its code point. -/
def doubleQuote : Char := Char.ofNat 34

/-- `MapViz.as_iframe`: replace every double quote of the document with a
single quote and splice the result into the iframe markup. -/
def as_iframe (div_id width height : String) (html_data : String) : String :=
  let srcdoc := pyReplaceChar html_data doubleQuote singleQuote
  "<iframe id=\"" ++ div_id ++ "\", srcdoc=\"" ++ srcdoc ++
    "\" style=\"width: " ++ width ++ "; height: " ++ height ++
    ";\"></iframe>"

/-- Claim C4: the resolved dash pattern equals exactly `[6,4]` for `"dashed"`
or `"--"`, `[0.5,4]` for `"dotted"` or `":"`, `[6,4,0.5,4]` for `"dash dot"`
or `"-."`, `[1,0]` for `"solid"`, and `[1,0]` for any other input. -/
theorem claim_C4_dash_pattern (s : String) :
    ((s = "dashed" ∨ s = "--") → line_dash_array s = [6, 4]) ∧
    ((s = "dotted" ∨ s = ":") → line_dash_array s = [1/2, 4]) ∧
    ((s = "dash dot" ∨ s = "-.") → line_dash_array s = [6, 4, 1/2, 4]) ∧
    (s = "solid" → line_dash_array s = [1, 0]) ∧
    (s ∉ (["dashed", "--", "dotted", ":", "dash dot", "-.", "solid"] :
        List String) → line_dash_array s = [1, 0]) := by
  refine ⟨?_, ?_, ?_, ?_, ?_⟩
  · rintro (rfl | rfl) <;> rfl
  · rintro (rfl | rfl) <;> rfl
  · rintro (rfl | rfl) <;> rfl
  · rintro rfl; rfl
  · intro h
    simp only [List.mem_cons, List.not_mem_nil, or_false, not_or] at h
    obtain ⟨h1, h2, h3, h4, h5, h6, h7⟩ := h
    rw [line_dash_array, if_neg (by tauto), if_neg (by tauto),
      if_neg (by tauto)]
    by_cases hs : s = "solid" ∨ s = "-"
    · rw [if_pos hs]
    · rw [if_neg hs]

/-- Witness for claim C4 at the concrete inputs `"dashed"`, `":"`, `"-."`,
`"solid"` and the unrecognized stroke `"zigzag"`. -/
theorem claim_C4_dash_pattern_witness :
    line_dash_array "dashed" = [6, 4] ∧
    line_dash_array ":" = [1/2, 4] ∧
    line_dash_array "-." = [6, 4, 1/2, 4] ∧
    line_dash_array "solid" = [1, 0] ∧
    line_dash_array "zigzag" = [1, 0] :=
  ⟨(claim_C4_dash_pattern "dashed").1 (Or.inl rfl),
   (claim_C4_dash_pattern ":").2.1 (Or.inr rfl),
   (claim_C4_dash_pattern "-.").2.2.1 (Or.inr rfl),
   (claim_C4_dash_pattern "solid").2.2.2.1 rfl,
   (claim_C4_dash_pattern "zigzag").2.2.2.2 (by decide)⟩

/-- Claim C9: the iframe-embedding step replaces every double quote of the
generated document before splicing it into the `srcdoc` attribute, so the
spliced document fragment contains no double-quote character at all. -/
theorem claim_C9_iframe_escapes_quotes (div_id width height html_data :
    String) :
    ∃ srcdoc : String,
      as_iframe div_id width height html_data =
        "<iframe id=\"" ++ div_id ++ "\", srcdoc=\"" ++ srcdoc ++
          "\" style=\"width: " ++ width ++ "; height: " ++ height ++
          ";\"></iframe>" ∧
      srcdoc.data.all (fun c => c ≠ doubleQuote) = true := by
  refine ⟨pyReplaceChar html_data doubleQuote singleQuote, rfl, ?_⟩
  rw [List.all_eq_true]
  intro c hc
  rw [pyReplaceChar] at hc
  simp only [String.data] at hc
  rcases List.mem_map.mp hc with ⟨c0, _, rfl⟩
  by_cases h0 : c0 = doubleQuote
  · simp [h0]
    decide
  · simp [h0]

/-- Claim C3: `MapViz` construction fails with the `TokenError` (whose message
names the signup and account URLs) exactly when the supplied token does not
start with `pk`; a token starting with `pk` is accepted and stored. -/
theorem claim_C3_token_check (t envToken : String) (data : List Row)
    (center : ℚ × ℚ) (below_layer : String) (opacity : ℚ)
    (div_id height style_url width : String) (zoom min_zoom max_zoom : ℚ) :
    (pyStartsWith t "pk" = false →
      MapViz_init data (some t) envToken center below_layer opacity div_id
          height style_url width zoom min_zoom max_zoom =
        Except.error (PyErr.tokenError tokenErrorMessage) ∧
      strContains tokenErrorMessage "https://www.mapbox.com/signup/" = true ∧
      strContains tokenErrorMessage "https://www.mapbox.com/account/" = true) ∧
    (pyStartsWith t "pk" = true →
      ∃ b : MapVizBase,
        MapViz_init data (some t) envToken center below_layer opacity div_id
            height style_url width zoom min_zoom max_zoom = Except.ok b ∧
        b.access_token = t) := by
  constructor
  · intro h
    refine ⟨?_, by decide, by decide⟩
    rw [MapViz_init]
    simp [h]
  · intro h
    rw [MapViz_init]
    simp [h]

/-- Witness for claim C3: the token `"sk-secret"` is rejected with the
`TokenError` and the token `"pk.abc"` is accepted and stored. -/
theorem claim_C3_token_check_witness :
    (MapViz_init [] (some "sk-secret") "" (0, 0) "" 1 "map" "500px"
        "mapbox://styles/mapbox/light-v9?optimize=true" "100%" 0 0 24 =
      Except.error (PyErr.tokenError tokenErrorMessage)) ∧
    (∃ b : MapVizBase,
      MapViz_init [] (some "pk.abc") "" (0, 0) "" 1 "map" "500px"
          "mapbox://styles/mapbox/light-v9?optimize=true" "100%" 0 0 24 =
        Except.ok b ∧
      b.access_token = "pk.abc") :=
  ⟨((claim_C3_token_check "sk-secret" "" [] (0, 0) "" 1 "map" "500px"
      "mapbox://styles/mapbox/light-v9?optimize=true" "100%" 0 0 24).1
      (by decide)).1,
   (claim_C3_token_check "pk.abc" "" [] (0, 0) "" 1 "map" "500px"
      "mapbox://styles/mapbox/light-v9?optimize=true" "100%" 0 0 24).2
      (by decide)⟩

/-- Claim C8: for a `ClusteredCircleViz` built from a non-empty stop list, the
assembled option map binds `baseColor` to the output value of the first stop,
`colorStops[0][1]`. -/
theorem claim_C8_base_color (b : MapVizBase) (stops : PyStops)
    (h : stops ≠ []) (radius_stops : Option PyStops)
    (cluster_radius cluster_maxzoom : ℚ) :
    ∃ opts,
      ClusteredCircleViz.createHtml
          { base := b, color_stops := some stops, radius_stops := radius_stops,
            clusterRadius := cluster_radius,
            clusterMaxZoom := cluster_maxzoom } = Except.ok opts ∧
      optGet opts "baseColor" = some (TVal.scalar (stops.head h).2) := by
  match stops, h with
  | first :: rest, _ => exact ⟨_, rfl, rfl⟩

/-- Witness for claim C8 at the stop list `[(0, "red"), (10, "blue")]`: the
assembled options bind `baseColor` to `"red"`. -/
theorem claim_C8_base_color_witness :
    ∃ opts,
      ClusteredCircleViz.createHtml
          { base :=
              { data := [], access_token := "pk.abc", center := (0, 0),
                below_layer := "", opacity := 1, div_id := "map",
                height := "500px", style_url := "s", width := "100%",
                zoom := 0, min_zoom := 0, max_zoom := 24,
                label_property := none },
            color_stops :=
              some [(PyScalar.int 0, PyScalar.str "red"),
                    (PyScalar.int 10, PyScalar.str "blue")],
            radius_stops := none, clusterRadius := 30,
            clusterMaxZoom := 14 } = Except.ok opts ∧
      optGet opts "baseColor" = some (TVal.scalar (PyScalar.str "red")) :=
  claim_C8_base_color
    { data := [], access_token := "pk.abc", center := (0, 0),
      below_layer := "", opacity := 1, div_id := "map", height := "500px",
      style_url := "s", width := "100%", zoom := 0, min_zoom := 0,
      max_zoom := 24, label_property := none }
    [(PyScalar.int 0, PyScalar.str "red"),
     (PyScalar.int 10, PyScalar.str "blue")]
    (by decide) none 30 14

/-- Claim C10: a `ClusteredCircleViz` constructed with `color_stops` left as
`None`, or as the empty list, is accepted by the constructor, but the option
assembly fails with a `TypeError` resp. `IndexError` when it reads the first
stop — a non-empty stop list is an unchecked precondition. -/
theorem claim_C10_clustered_empty_stops (data : List Row) (t envToken : String)
    (h : pyStartsWith t "pk" = true) (center : ℚ × ℚ) (below_layer : String)
    (opacity : ℚ) (div_id height style_url width : String)
    (zoom min_zoom max_zoom : ℚ) (radius_stops : Option PyStops)
    (cluster_radius cluster_maxzoom : ℚ) :
    (∃ viz : ClusteredCircleViz,
      ClusteredCircleViz_init data (some t) envToken center below_layer
          opacity div_id height style_url width zoom min_zoom max_zoom
          none radius_stops cluster_radius cluster_maxzoom = Except.ok viz ∧
      viz.color_stops = none ∧
      ClusteredCircleViz.createHtml viz = Except.error PyErr.typeError) ∧
    (∃ viz : ClusteredCircleViz,
      ClusteredCircleViz_init data (some t) envToken center below_layer
          opacity div_id height style_url width zoom min_zoom max_zoom
          (some []) radius_stops cluster_radius cluster_maxzoom =
        Except.ok viz ∧
      viz.color_stops = some [] ∧
      ClusteredCircleViz.createHtml viz = Except.error PyErr.indexError) := by
  constructor
  · rw [ClusteredCircleViz_init, MapViz_init]
    simp [h, ClusteredCircleViz.createHtml, create_html,
      clustered_circle_unique_vars]
  · rw [ClusteredCircleViz_init, MapViz_init]
    simp [h, ClusteredCircleViz.createHtml, create_html,
      clustered_circle_unique_vars]

/-- Witness for claim C10 with the token `"pk.abc"`. -/
theorem claim_C10_clustered_empty_stops_witness :
    (∃ viz : ClusteredCircleViz,
      ClusteredCircleViz_init [] (some "pk.abc") "" (0, 0) "" 1 "map" "500px"
          "s" "100%" 0 0 24 none none 30 14 = Except.ok viz ∧
      viz.color_stops = none ∧
      ClusteredCircleViz.createHtml viz = Except.error PyErr.typeError) ∧
    (∃ viz : ClusteredCircleViz,
      ClusteredCircleViz_init [] (some "pk.abc") "" (0, 0) "" 1 "map" "500px"
          "s" "100%" 0 0 24 (some []) none 30 14 = Except.ok viz ∧
      viz.color_stops = some [] ∧
      ClusteredCircleViz.createHtml viz = Except.error PyErr.indexError) :=
  claim_C10_clustered_empty_stops [] "pk.abc" "" (by decide) (0, 0) "" 1 "map"
    "500px" "s" "100%" 0 0 24 none 30 14

/-- Counterexample to claim C1 as stated: in the choropleth data join, a row
that lacks the color property makes the join raise a `KeyError` instead of
resolving to the configured default — the join does not produce the pair the
claim predicts. -/
theorem claim_C1_missing_property_counterexample :
    generate_vector_color_map [[("id", PyScalar.str "A")]] (some "pop")
        (some []) (PyScalar.str "grey") (some "id") =
      Except.error (PyErr.keyError (some "pop")) ∧
    generate_vector_color_map [[("id", PyScalar.str "A")]] (some "pop")
        (some []) (PyScalar.str "grey") (some "id") ≠
      Except.ok [(PyScalar.str "A", PyScalar.str "grey")] := by
  constructor
  · rfl
  · intro h
    have h2 : Except.error (PyErr.keyError (some "pop")) =
        (Except.ok [(PyScalar.str "A", PyScalar.str "grey")] :
          Except PyErr (List (PyScalar × PyScalar))) := h
    cases h2

/-- Claim C1 amended: in the per-row color resolution of the choropleth data
join, if the row has the color property and its value equals some stop key,
the result is that stop's output (the first matching stop); if the row has the
property but no stop key matches, the result is the configured default; if
the row lacks the property, a `KeyError` is raised instead of returning the
default. -/
theorem claim_C1_row_color_resolution (row : Row) (cp : String)
    (stops : PyStops) (dflt : PyScalar) :
    (∀ v : PyScalar, dictGet row cp = some v →
      ((∃ i : Fin stops.length, (stops.get i).1 = v ∧
          row_color row (some cp) (some stops) dflt =
            Except.ok (stops.get i).2) ∨
        ((∀ st ∈ stops, st.1 ≠ v) ∧
          row_color row (some cp) (some stops) dflt = Except.ok dflt))) ∧
    (dictGet row cp = none →
      row_color row (some cp) (some stops) dflt =
        Except.error (PyErr.keyError (some cp))) := by
  constructor
  · intro v hv
    have hrc : row_color row (some cp) (some stops) dflt =
        Except.ok (color_map v (some stops) dflt) := by
      rw [row_color, getItem, hv]
      rfl
    cases hfind : stops.find? (fun st => st.1 = v) with
    | some st =>
      have hmem : st ∈ stops := List.mem_of_find?_eq_some hfind
      obtain ⟨i, hi⟩ := List.mem_iff_get.mp hmem
      have hkey : st.1 = v := by
        have := List.find?_some hfind
        simpa using this
      refine Or.inl ⟨i, by rw [hi]; exact hkey, ?_⟩
      rw [hrc, color_map, hfind, hi]
    | none =>
      refine Or.inr ⟨?_, ?_⟩
      · intro st hst
        have := List.find?_eq_none.mp hfind st hst
        simpa using this
      · rw [hrc, color_map, hfind]
  · intro hv
    rw [row_color, getItem, hv]
    rfl

/-- Witness for the amended claim C1: a matching row resolves to the matched
stop output and a property-bearing row with no matching stop resolves to the
default, while a row lacking the property raises `KeyError`. -/
theorem claim_C1_row_color_resolution_witness :
    ((∃ i : Fin ([(PyScalar.int 5, PyScalar.str "red")] : PyStops).length,
        (([(PyScalar.int 5, PyScalar.str "red")] : PyStops).get i).1 =
          PyScalar.int 5 ∧
        row_color [("pop", PyScalar.int 5)] (some "pop")
            (some [(PyScalar.int 5, PyScalar.str "red")])
            (PyScalar.str "grey") =
          Except.ok
            (([(PyScalar.int 5, PyScalar.str "red")] : PyStops).get i).2) ∨
      ((∀ st ∈ ([(PyScalar.int 5, PyScalar.str "red")] : PyStops),
          st.1 ≠ PyScalar.int 5) ∧
        row_color [("pop", PyScalar.int 5)] (some "pop")
            (some [(PyScalar.int 5, PyScalar.str "red")])
            (PyScalar.str "grey") = Except.ok (PyScalar.str "grey"))) ∧
    row_color [] (some "pop") (some [(PyScalar.int 5, PyScalar.str "red")])
        (PyScalar.str "grey") = Except.error (PyErr.keyError (some "pop")) :=
  ⟨(claim_C1_row_color_resolution [("pop", PyScalar.int 5)] "pop"
      [(PyScalar.int 5, PyScalar.str "red")] (PyScalar.str "grey")).1
      (PyScalar.int 5) (by decide),
   (claim_C1_row_color_resolution [] "pop"
      [(PyScalar.int 5, PyScalar.str "red")] (PyScalar.str "grey")).2
      (by decide)⟩

/-- Claim C2: when every data row carries both the color property and the
data-join property, `generate_vector_color_map` succeeds and returns one entry
per input row, in input order, the `i`-th entry being
`[rows[i][dataJoinProperty], resolveColor(rows[i], colorProperty, colorStops,
colorDefault)]`. -/
theorem claim_C2_join_table (data : List Row) (cp djp : String)
    (stops : PyStops) (dflt : PyScalar)
    (h : ∀ row ∈ data, (dictGet row cp).isSome = true ∧
      (dictGet row djp).isSome = true) :
    ∃ out : List (PyScalar × PyScalar),
      generate_vector_color_map data (some cp) (some stops) dflt (some djp) =
        Except.ok out ∧
      out.length = data.length ∧
      ∀ (i : ℕ) (hi : i < data.length),
        ∃ j : PyScalar, dictGet (data.get ⟨i, hi⟩) djp = some j ∧
          out[i]? = some (j, resolveColor (data.get ⟨i, hi⟩) cp stops dflt) := by
  induction data with
  | nil =>
    exact ⟨[], rfl, rfl, fun i hi => absurd hi (Nat.not_lt_zero i)⟩
  | cons row rest ih =>
    obtain ⟨hv0, hj0⟩ := h row (List.mem_cons_self row rest)
    obtain ⟨v, hv⟩ := Option.isSome_iff_exists.mp hv0
    obtain ⟨j, hj⟩ := Option.isSome_iff_exists.mp hj0
    obtain ⟨out, hout, hlen, hidx⟩ :=
      ih (fun r hr => h r (List.mem_cons_of_mem row hr))
    have hrc : row_color row (some cp) (some stops) dflt =
        Except.ok (color_map v (some stops) dflt) := by
      simp only [row_color, getItem, hv]
      rfl
    have hgi : getItem row (some djp) = Except.ok j := by
      simp only [getItem, hj]
    refine ⟨(j, color_map v (some stops) dflt) :: out, ?_, ?_, ?_⟩
    · simp only [generate_vector_color_map]
      rw [hrc, hgi, hout]
      rfl
    · simpa using hlen
    · intro i hi
      cases i with
      | zero =>
        refine ⟨j, by simpa using hj, ?_⟩
        have hres : resolveColor row cp stops dflt =
            color_map v (some stops) dflt := by
          simp only [resolveColor, color_map, hv]
        simp [hres]
      | succ n =>
        have hn : n < rest.length := by simpa using hi
        obtain ⟨j', hj', hout'⟩ := hidx n hn
        refine ⟨j', ?_, ?_⟩
        · simpa using hj'
        · simpa using hout'

/-- Witness for claim C2 at the spec's end-to-end example: two rows with `id`
and `pop` properties, stops `[(0, red), (10, blue)]`, default `grey`. -/
theorem claim_C2_join_table_witness :
    ∃ out : List (PyScalar × PyScalar),
      generate_vector_color_map
          [[("id", PyScalar.str "A"), ("pop", PyScalar.int 5)],
           [("id", PyScalar.str "B"), ("pop", PyScalar.int 50)]]
          (some "pop")
          (some [(PyScalar.int 0, PyScalar.str "red"),
                 (PyScalar.int 10, PyScalar.str "blue")])
          (PyScalar.str "grey") (some "id") = Except.ok out ∧
      out.length =
        ([[("id", PyScalar.str "A"), ("pop", PyScalar.int 5)],
          [("id", PyScalar.str "B"), ("pop", PyScalar.int 50)]] :
            List Row).length ∧
      ∀ (i : ℕ)
        (hi : i < ([[("id", PyScalar.str "A"), ("pop", PyScalar.int 5)],
          [("id", PyScalar.str "B"), ("pop", PyScalar.int 50)]] :
            List Row).length),
        ∃ j : PyScalar,
          dictGet (([[("id", PyScalar.str "A"), ("pop", PyScalar.int 5)],
            [("id", PyScalar.str "B"), ("pop", PyScalar.int 50)]] :
              List Row).get ⟨i, hi⟩) "id" = some j ∧
          out[i]? = some (j,
            resolveColor (([[("id", PyScalar.str "A"),
              ("pop", PyScalar.int 5)],
              [("id", PyScalar.str "B"), ("pop", PyScalar.int 50)]] :
                List Row).get ⟨i, hi⟩) "pop"
              [(PyScalar.int 0, PyScalar.str "red"),
               (PyScalar.int 10, PyScalar.str "blue")]
              (PyScalar.str "grey")) :=
  claim_C2_join_table
    [[("id", PyScalar.str "A"), ("pop", PyScalar.int 5)],
     [("id", PyScalar.str "B"), ("pop", PyScalar.int 50)]]
    "pop" "id"
    [(PyScalar.int 0, PyScalar.str "red"),
     (PyScalar.int 10, PyScalar.str "blue")]
    (PyScalar.str "grey") (by decide)

/-- A dict subscript either returns a value or raises a `KeyError`. -/
theorem getItem_ok_or_keyError (row : Row) (k : Option String) :
    (∃ v, getItem row k = Except.ok v) ∨
    (∃ kk, getItem row k = Except.error (PyErr.keyError kk)) := by
  cases k with
  | none => exact Or.inr ⟨none, rfl⟩
  | some s =>
    cases h : dictGet row s with
    | some v => exact Or.inl ⟨v, by simp [getItem, h]⟩
    | none => exact Or.inr ⟨some s, by simp [getItem, h]⟩

/-- The join generator either succeeds or raises a `KeyError`. -/
theorem generate_ok_or_keyError (data : List Row) (cp : Option String)
    (stops : Option PyStops) (dflt : PyScalar) (djp : Option String) :
    (∃ out, generate_vector_color_map data cp stops dflt djp =
      Except.ok out) ∨
    (∃ k, generate_vector_color_map data cp stops dflt djp =
      Except.error (PyErr.keyError k)) := by
  induction data with
  | nil => exact Or.inl ⟨[], rfl⟩
  | cons row rest ih =>
    rcases getItem_ok_or_keyError row cp with ⟨v, hv⟩ | ⟨k, hk⟩
    · have hrc : row_color row cp stops dflt =
          Except.ok (color_map v stops dflt) := by
        rw [row_color, hv]
        rfl
      rcases getItem_ok_or_keyError row djp with ⟨j, hj⟩ | ⟨k, hk2⟩
      · rcases ih with ⟨out, hout⟩ | ⟨k, hk3⟩
        · refine Or.inl ⟨(j, color_map v stops dflt) :: out, ?_⟩
          simp only [generate_vector_color_map]
          rw [hrc, hj, hout]
          rfl
        · refine Or.inr ⟨k, ?_⟩
          simp only [generate_vector_color_map]
          rw [hrc, hj, hk3]
          rfl
      · refine Or.inr ⟨k, ?_⟩
        simp only [generate_vector_color_map]
        rw [hrc, hk2]
        rfl
    · have hrc : row_color row cp stops dflt =
          Except.error (PyErr.keyError k) := by
        rw [row_color, hk]
        rfl
      refine Or.inr ⟨k, ?_⟩
      simp only [generate_vector_color_map]
      rw [hrc]
      rfl

/-- Inversion: a successful join run over `row :: rest` implies the head
row's join-key subscript succeeded and the tail run succeeded. -/
theorem generate_cons_ok (row : Row) (rest : List Row) (cp : Option String)
    (stops : Option PyStops) (dflt : PyScalar) (djp : Option String)
    (out : List (PyScalar × PyScalar))
    (h : generate_vector_color_map (row :: rest) cp stops dflt djp =
      Except.ok out) :
    (∃ j, getItem row djp = Except.ok j) ∧
    (∃ out2, generate_vector_color_map rest cp stops dflt djp =
      Except.ok out2) := by
  rcases getItem_ok_or_keyError row cp with ⟨v, hv⟩ | ⟨k, hk⟩
  · have hrc : row_color row cp stops dflt =
        Except.ok (color_map v stops dflt) := by
      rw [row_color, hv]
      rfl
    rcases getItem_ok_or_keyError row djp with ⟨j, hj⟩ | ⟨k, hk2⟩
    · rcases generate_ok_or_keyError rest cp stops dflt djp with
        ⟨out2, hout⟩ | ⟨k, hk3⟩
      · exact ⟨⟨j, hj⟩, ⟨out2, hout⟩⟩
      · exfalso
        have hall : generate_vector_color_map (row :: rest) cp stops dflt
            djp = Except.error (PyErr.keyError k) := by
          simp only [generate_vector_color_map]
          rw [hrc, hj, hk3]
          rfl
        rw [hall] at h
        cases h
    · exfalso
      have hall : generate_vector_color_map (row :: rest) cp stops dflt djp =
          Except.error (PyErr.keyError k) := by
        simp only [generate_vector_color_map]
        rw [hrc, hk2]
        rfl
      rw [hall] at h
      cases h
  · exfalso
    have hrc : row_color row cp stops dflt =
        Except.error (PyErr.keyError k) := by
      rw [row_color, hk]
      rfl
    have hall : generate_vector_color_map (row :: rest) cp stops dflt djp =
        Except.error (PyErr.keyError k) := by
      simp only [generate_vector_color_map]
      rw [hrc]
      rfl
    rw [hall] at h
    cases h

/-- A successful join run requires every row to carry the join property. -/
theorem generate_ok_rows_have_join_key (data : List Row) (cp : Option String)
    (stops : Option PyStops) (dflt : PyScalar) (djp : String)
    (out : List (PyScalar × PyScalar))
    (h : generate_vector_color_map data cp stops dflt (some djp) =
      Except.ok out) :
    ∀ row ∈ data, (dictGet row djp).isSome = true := by
  induction data generalizing out with
  | nil =>
    intro r hr
    cases hr
  | cons row rest ih =>
    obtain ⟨⟨j, hj⟩, ⟨out2, hout⟩⟩ :=
      generate_cons_ok row rest cp stops dflt (some djp) out h
    intro r hr
    rcases List.mem_cons.mp hr with rfl | hr2
    · cases hd : dictGet r djp with
      | some v => simp
      | none =>
        exfalso
        simp [getItem, hd] at hj
    · exact ih out2 hout r hr2

/-- Claim C6: for a vector-mode `ChoroplethViz` whose data contains a row
lacking the configured data-join property, the join-table generation raises a
`KeyError` (a lookup failure) and the error propagates through the option
assembly instead of being recovered with a fallback value. -/
theorem claim_C6_missing_join_key (viz : ChoroplethViz) (djp : String)
    (hdjp : viz.data_join_property = some djp)
    (hvec : viz.vector_source = true)
    (hrow : ∃ row ∈ viz.base.data, dictGet row djp = none) :
    ∃ k, generate_vector_color_map viz.base.data viz.color_property
        viz.color_stops viz.color_default viz.data_join_property =
      Except.error (PyErr.keyError k) ∧
      ChoroplethViz.createHtml viz = Except.error (PyErr.keyError k) := by
  obtain ⟨row, hmem, hnone⟩ := hrow
  rcases generate_ok_or_keyError viz.base.data viz.color_property
      viz.color_stops viz.color_default viz.data_join_property with
    ⟨out, hout⟩ | ⟨k, hk⟩
  · exfalso
    have hsome := generate_ok_rows_have_join_key viz.base.data
      viz.color_property viz.color_stops viz.color_default djp out
      (by rwa [hdjp] at hout) row hmem
    rw [hnone] at hsome
    cases hsome
  · refine ⟨k, hk, ?_⟩
    rw [ChoroplethViz.createHtml, create_html, choropleth_unique_vars, hvec]
    simp only [if_true]
    rw [hk]
    rfl

/-- Witness for claim C6: a vector-mode viz whose single data row lacks the
join property `"id"`. -/
theorem claim_C6_missing_join_key_witness :
    ∃ k, generate_vector_color_map [[("pop", PyScalar.int 5)]] (some "pop")
        (some []) (PyScalar.str "grey") (some "id") =
      Except.error (PyErr.keyError k) ∧
      ChoroplethViz.createHtml
          { base :=
              { data := [[("pop", PyScalar.int 5)]],
                access_token := "pk.abc", center := (0, 0), below_layer := "",
                opacity := 1, div_id := "map", height := "500px",
                style_url := "s", width := "100%", zoom := 0, min_zoom := 0,
                max_zoom := 24, label_property := none },
            vector_url := some "mapbox://x", vector_layer_name := some "y",
            vector_join_property := some "id",
            data_join_property := some "id", color_property := some "pop",
            color_stops := some [], color_default := PyScalar.str "grey",
            color_function_type := "interpolate", line_color := "white",
            line_stroke := "solid", line_width := 1,
            template := "vector_choropleth", vector_source := true } =
        Except.error (PyErr.keyError k) :=
  claim_C6_missing_join_key
    { base :=
        { data := [[("pop", PyScalar.int 5)]], access_token := "pk.abc",
          center := (0, 0), below_layer := "", opacity := 1, div_id := "map",
          height := "500px", style_url := "s", width := "100%", zoom := 0,
          min_zoom := 0, max_zoom := 24, label_property := none },
      vector_url := some "mapbox://x", vector_layer_name := some "y",
      vector_join_property := some "id", data_join_property := some "id",
      color_property := some "pop", color_stops := some [],
      color_default := PyScalar.str "grey",
      color_function_type := "interpolate", line_color := "white",
      line_stroke := "solid", line_width := 1,
      template := "vector_choropleth", vector_source := true }
    "id" rfl rfl (by decide)

/-- Claim C5: vector-join mode (vector template selected, vector option keys
emitted) is active exactly when both `vector_url` and `vector_layer_name`
are set; otherwise the viz degrades to the plain GeoJSON choropleth, whose
assembled options serialize the data under `geojson_data` and bind none of
the vector keys. -/
theorem claim_C5_vector_mode_gating :
    (∀ (b : MapVizBase) (vu vln vjp djp lp cp : Option String)
        (cs : Option PyStops) (cd : PyScalar) (cft lc ls : String) (lw : ℚ),
      ((ChoroplethViz_init b vu vln vjp djp lp cp cs cd cft lc ls
          lw).vector_source = true ↔
        vu.isSome = true ∧ vln.isSome = true) ∧
      ((ChoroplethViz_init b vu vln vjp djp lp cp cs cd cft lc ls
          lw).template = "vector_choropleth" ↔
        vu.isSome = true ∧ vln.isSome = true) ∧
      ((ChoroplethViz_init b vu vln vjp djp lp cp cs cd cft lc ls
          lw).template = "choropleth" ↔
        ¬(vu.isSome = true ∧ vln.isSome = true))) ∧
    (∀ (viz : ChoroplethViz) (opts : List (String × TVal)),
      ChoroplethViz.createHtml viz = Except.ok opts →
      (((optGet opts "vectorUrl").isSome = true ↔
          viz.vector_source = true) ∧
       ((optGet opts "vectorLayer").isSome = true ↔
          viz.vector_source = true) ∧
       ((optGet opts "vectorColorStops").isSome = true ↔
          viz.vector_source = true) ∧
       ((optGet opts "vectorJoinColorProperty").isSome = true ↔
          viz.vector_source = true) ∧
       ((optGet opts "joinData").isSome = true ↔
          viz.vector_source = true) ∧
       ((optGet opts "dataJoinProperty").isSome = true ↔
          viz.vector_source = true) ∧
       (viz.vector_source = false →
         optGet opts "geojson_data" =
           some (TVal.json viz.base.data)))) := by
  constructor
  · intro b vu vln vjp djp lp cp cs cd cft lc ls lw
    refine ⟨?_, ?_, ?_⟩
    · simp [ChoroplethViz_init, Bool.and_eq_true]
    · cases hu : vu.isSome <;> cases hl : vln.isSome <;>
        simp [ChoroplethViz_init, hu, hl]
    · cases hu : vu.isSome <;> cases hl : vln.isSome <;>
        simp [ChoroplethViz_init, hu, hl]
  · intro viz opts hok
    cases hvs : viz.vector_source with
    | true =>
      rcases generate_ok_or_keyError viz.base.data viz.color_property
          viz.color_stops viz.color_default viz.data_join_property with
        ⟨vstops, hg⟩ | ⟨k, hg⟩
      · have hch : ChoroplethViz.createHtml viz =
            Except.ok (baseOptions viz.base ++
              ([ ("colorStops", optStops viz.color_stops),
                 ("colorProperty", optStr viz.color_property),
                 ("colorType", TVal.str viz.color_function_type),
                 ("defaultColor", TVal.scalar viz.color_default),
                 ("lineColor", TVal.str viz.line_color),
                 ("lineDashArray",
                   TVal.numList (line_dash_array viz.line_stroke)),
                 ("lineStroke", TVal.str viz.line_stroke),
                 ("lineWidth", TVal.num viz.line_width) ] ++
               [ ("vectorUrl", optStr viz.vector_url),
                 ("vectorLayer", optStr viz.vector_layer_name),
                 ("vectorColorStops", TVal.stops vstops),
                 ("vectorJoinColorProperty",
                   optStr viz.vector_join_property),
                 ("joinData", TVal.json viz.base.data),
                 ("dataJoinProperty", optStr viz.data_join_property) ])) := by
          rw [ChoroplethViz.createHtml, create_html, choropleth_unique_vars,
            hvs]
          simp only [if_true]
          rw [hg]
          rfl
        rw [hch] at hok
        injection hok with h
        subst h
        exact ⟨Iff.rfl, Iff.rfl, Iff.rfl, Iff.rfl, Iff.rfl, Iff.rfl,
          fun h => Bool.noConfusion h⟩
      · have hch : ChoroplethViz.createHtml viz =
            Except.error (PyErr.keyError k) := by
          rw [ChoroplethViz.createHtml, create_html, choropleth_unique_vars,
            hvs]
          simp only [if_true]
          rw [hg]
          rfl
        rw [hch] at hok
        cases hok
    | false =>
      have hch : ChoroplethViz.createHtml viz =
          Except.ok (baseOptions viz.base ++
            ([ ("colorStops", optStops viz.color_stops),
               ("colorProperty", optStr viz.color_property),
               ("colorType", TVal.str viz.color_function_type),
               ("defaultColor", TVal.scalar viz.color_default),
               ("lineColor", TVal.str viz.line_color),
               ("lineDashArray",
                 TVal.numList (line_dash_array viz.line_stroke)),
               ("lineStroke", TVal.str viz.line_stroke),
               ("lineWidth", TVal.num viz.line_width) ] ++
             [ ("geojson_data", TVal.json viz.base.data) ])) := by
        rw [ChoroplethViz.createHtml, create_html, choropleth_unique_vars,
          hvs]
        rfl
      rw [hch] at hok
      injection hok with h
      subst h
      exact ⟨Iff.rfl, Iff.rfl, Iff.rfl, Iff.rfl, Iff.rfl, Iff.rfl,
        fun _ => rfl⟩

/-- Witness for claim C5: a concrete GeoJSON-mode choropleth (no vector url
or layer) whose assembled options bind `geojson_data` and none of the vector
keys. -/
theorem claim_C5_vector_mode_gating_witness :
    let viz : ChoroplethViz :=
      { base :=
          { data := [], access_token := "pk.abc", center := (0, 0),
            below_layer := "", opacity := 1, div_id := "map",
            height := "500px", style_url := "s", width := "100%", zoom := 0,
            min_zoom := 0, max_zoom := 24, label_property := none },
        vector_url := none, vector_layer_name := none,
        vector_join_property := none, data_join_property := none,
        color_property := some "pop", color_stops := some [],
        color_default := PyScalar.str "grey",
        color_function_type := "interpolate", line_color := "white",
        line_stroke := "solid", line_width := 1, template := "choropleth",
        vector_source := false }
    let opts : List (String × TVal) := baseOptions viz.base ++
      ([ ("colorStops", optStops viz.color_stops),
         ("colorProperty", optStr viz.color_property),
         ("colorType", TVal.str viz.color_function_type),
         ("defaultColor", TVal.scalar viz.color_default),
         ("lineColor", TVal.str viz.line_color),
         ("lineDashArray", TVal.numList (line_dash_array viz.line_stroke)),
         ("lineStroke", TVal.str viz.line_stroke),
         ("lineWidth", TVal.num viz.line_width) ] ++
       [ ("geojson_data", TVal.json viz.base.data) ])
    ((optGet opts "vectorUrl").isSome = true ↔ viz.vector_source = true) ∧
    ((optGet opts "vectorLayer").isSome = true ↔
      viz.vector_source = true) ∧
    ((optGet opts "vectorColorStops").isSome = true ↔
      viz.vector_source = true) ∧
    ((optGet opts "vectorJoinColorProperty").isSome = true ↔
      viz.vector_source = true) ∧
    ((optGet opts "joinData").isSome = true ↔ viz.vector_source = true) ∧
    ((optGet opts "dataJoinProperty").isSome = true ↔
      viz.vector_source = true) ∧
    (viz.vector_source = false →
      optGet opts "geojson_data" = some (TVal.json viz.base.data)) := by
  intro viz opts
  exact claim_C5_vector_mode_gating.2 viz opts rfl

/-- An option map whose keys all differ from `k` yields no binding for `k`. -/
theorem optGet_keys_ne (l : List (String × TVal)) (k : String)
    (h : ∀ kv ∈ l, kv.1 ≠ k) : optGet l k = none := by
  induction l with
  | nil => rfl
  | cons kv rest ih =>
    have h1 : kv.1 ≠ k := h kv (List.mem_cons_self kv rest)
    have h2 : optGet rest k = none :=
      ih (fun x hx => h x (List.mem_cons_of_mem kv hx))
    simp only [optGet, h2, if_neg h1]

/-- If the appended writes do not bind `k`, lookup falls back to the first
block. -/
theorem optGet_append_none (a b : List (String × TVal)) (k : String)
    (h : optGet b k = none) : optGet (a ++ b) k = optGet a k := by
  induction a with
  | nil => simpa using h
  | cons kv rest ih =>
    rw [List.cons_append]
    show (match optGet (rest ++ b) k with
      | some v => some v
      | none => if kv.1 = k then some kv.2 else none) =
      match optGet rest k with
      | some v => some v
      | none => if kv.1 = k then some kv.2 else none
    rw [ih]

/-- Claim C7: the assembled options always bind `labelProperty` — to the
explicit `None` marker when `label_property` is unset, and to the
brace-wrapped property name otherwise; no variant's unique writes touch this
key. -/
theorem claim_C7_label_property_binding :
    (∀ (b : MapVizBase) (u : List (String × TVal)),
      (∀ kv ∈ u, kv.1 ≠ "labelProperty") →
      ∀ opts, create_html b (Except.ok u) = Except.ok opts →
        ((b.label_property = none →
          optGet opts "labelProperty" = some TVal.none) ∧
         (∀ nm, b.label_property = some nm →
          optGet opts "labelProperty" =
            some (TVal.str ("\x7b" ++ nm ++ "\x7d"))))) ∧
    (∀ (data : List Row) (cp : Option String) (cft : String)
        (cs : Option PyStops) (cd : PyScalar),
      ∀ kv ∈ circle_unique_vars data cp cft cs cd,
        kv.1 ≠ "labelProperty") ∧
    (∀ (cp : Option String) (cs : Option PyStops) (cft rft : String)
        (cd : PyScalar) (rd : TVal) (rp : Option String)
        (rs : Option PyStops),
      ∀ kv ∈ graduated_circle_unique_vars cp cs cft rft cd rd rp rs,
        kv.1 ≠ "labelProperty") ∧
    (∀ (cs rs : Option PyStops) (wp : Option String) (ws : Option PyStops),
      ∀ kv ∈ heatmap_unique_vars cs rs wp ws, kv.1 ≠ "labelProperty") ∧
    (∀ (cs rs : Option PyStops) (cr cmz : ℚ) (u : List (String × TVal)),
      clustered_circle_unique_vars cs rs cr cmz = Except.ok u →
      ∀ kv ∈ u, kv.1 ≠ "labelProperty") ∧
    (∀ (viz : ChoroplethViz) (u : List (String × TVal)),
      choropleth_unique_vars viz = Except.ok u →
      ∀ kv ∈ u, kv.1 ≠ "labelProperty") := by
  refine ⟨?_, ?_, ?_, ?_, ?_, ?_⟩
  · intro b u hu opts hok
    have hch : create_html b (Except.ok u) =
        Except.ok (baseOptions b ++ u) := rfl
    rw [hch] at hok
    injection hok with h
    subst h
    have hfall : optGet (baseOptions b ++ u) "labelProperty" =
        optGet (baseOptions b) "labelProperty" :=
      optGet_append_none _ _ _ (optGet_keys_ne u _ hu)
    have hbase : optGet (baseOptions b) "labelProperty" =
        some (match b.label_property with
          | none => TVal.none
          | some lp => TVal.str ("\x7b" ++ lp ++ "\x7d")) := rfl
    constructor
    · intro hl
      rw [hfall, hbase, hl]
    · intro nm hl
      rw [hfall, hbase, hl]
  · intro data cp cft cs cd
    have hall : (circle_unique_vars data cp cft cs cd).all
        (fun kv => decide (kv.1 ≠ "labelProperty")) = true := rfl
    intro kv hkv
    exact of_decide_eq_true (List.all_eq_true.mp hall kv hkv)
  · intro cp cs cft rft cd rd rp rs
    have hall : (graduated_circle_unique_vars cp cs cft rft cd rd rp
        rs).all (fun kv => decide (kv.1 ≠ "labelProperty")) = true := rfl
    intro kv hkv
    exact of_decide_eq_true (List.all_eq_true.mp hall kv hkv)
  · intro cs rs wp ws
    have hall : (heatmap_unique_vars cs rs wp ws).all
        (fun kv => decide (kv.1 ≠ "labelProperty")) = true := rfl
    intro kv hkv
    exact of_decide_eq_true (List.all_eq_true.mp hall kv hkv)
  · intro cs rs cr cmz u hu kv hkv
    cases cs with
    | none => cases hu
    | some stops =>
      cases stops with
      | nil => cases hu
      | cons first rest =>
        have hu2 : clustered_circle_unique_vars (some (first :: rest)) rs cr
            cmz = Except.ok
              [ ("colorStops", TVal.stops (first :: rest)),
                ("baseColor", TVal.scalar first.2),
                ("radiusStops", optStops rs),
                ("clusterRadius", TVal.num cr),
                ("clusterMaxZoom", TVal.num cmz) ] := rfl
        rw [hu2] at hu
        injection hu with h
        subst h
        have hall : (List.all
            [ ("colorStops", TVal.stops (first :: rest)),
              ("baseColor", TVal.scalar first.2),
              ("radiusStops", optStops rs),
              ("clusterRadius", TVal.num cr),
              ("clusterMaxZoom", TVal.num cmz) ]
            (fun kv => decide (kv.1 ≠ "labelProperty"))) = true := rfl
        exact of_decide_eq_true (List.all_eq_true.mp hall kv hkv)
  · intro viz u hu kv hkv
    cases hvs : viz.vector_source with
    | false =>
      have hu2 : choropleth_unique_vars viz = Except.ok
          ([ ("colorStops", optStops viz.color_stops),
             ("colorProperty", optStr viz.color_property),
             ("colorType", TVal.str viz.color_function_type),
             ("defaultColor", TVal.scalar viz.color_default),
             ("lineColor", TVal.str viz.line_color),
             ("lineDashArray", TVal.numList (line_dash_array
               viz.line_stroke)),
             ("lineStroke", TVal.str viz.line_stroke),
             ("lineWidth", TVal.num viz.line_width) ] ++
           [ ("geojson_data", TVal.json viz.base.data) ]) := by
        rw [choropleth_unique_vars, hvs]
        rfl
      rw [hu2] at hu
      injection hu with h
      subst h
      have hall : (List.all
          ([ ("colorStops", optStops viz.color_stops),
             ("colorProperty", optStr viz.color_property),
             ("colorType", TVal.str viz.color_function_type),
             ("defaultColor", TVal.scalar viz.color_default),
             ("lineColor", TVal.str viz.line_color),
             ("lineDashArray", TVal.numList (line_dash_array
               viz.line_stroke)),
             ("lineStroke", TVal.str viz.line_stroke),
             ("lineWidth", TVal.num viz.line_width) ] ++
           [ ("geojson_data", TVal.json viz.base.data) ])
          (fun kv => decide (kv.1 ≠ "labelProperty"))) = true := rfl
      exact of_decide_eq_true (List.all_eq_true.mp hall kv hkv)
    | true =>
      rcases generate_ok_or_keyError viz.base.data viz.color_property
          viz.color_stops viz.color_default viz.data_join_property with
        ⟨vstops, hg⟩ | ⟨k, hg⟩
      · have hu2 : choropleth_unique_vars viz = Except.ok
            ([ ("colorStops", optStops viz.color_stops),
               ("colorProperty", optStr viz.color_property),
               ("colorType", TVal.str viz.color_function_type),
               ("defaultColor", TVal.scalar viz.color_default),
               ("lineColor", TVal.str viz.line_color),
               ("lineDashArray", TVal.numList (line_dash_array
                 viz.line_stroke)),
               ("lineStroke", TVal.str viz.line_stroke),
               ("lineWidth", TVal.num viz.line_width) ] ++
             [ ("vectorUrl", optStr viz.vector_url),
               ("vectorLayer", optStr viz.vector_layer_name),
               ("vectorColorStops", TVal.stops vstops),
               ("vectorJoinColorProperty", optStr viz.vector_join_property),
               ("joinData", TVal.json viz.base.data),
               ("dataJoinProperty", optStr viz.data_join_property) ]) := by
          rw [choropleth_unique_vars, hvs]
          simp only [if_true]
          rw [hg]
          rfl
        rw [hu2] at hu
        injection hu with h
        subst h
        have hall : (List.all
            ([ ("colorStops", optStops viz.color_stops),
               ("colorProperty", optStr viz.color_property),
               ("colorType", TVal.str viz.color_function_type),
               ("defaultColor", TVal.scalar viz.color_default),
               ("lineColor", TVal.str viz.line_color),
               ("lineDashArray", TVal.numList (line_dash_array
                 viz.line_stroke)),
               ("lineStroke", TVal.str viz.line_stroke),
               ("lineWidth", TVal.num viz.line_width) ] ++
             [ ("vectorUrl", optStr viz.vector_url),
               ("vectorLayer", optStr viz.vector_layer_name),
               ("vectorColorStops", TVal.stops vstops),
               ("vectorJoinColorProperty", optStr viz.vector_join_property),
               ("joinData", TVal.json viz.base.data),
               ("dataJoinProperty", optStr viz.data_join_property) ])
            (fun kv => decide (kv.1 ≠ "labelProperty"))) = true := rfl
        exact of_decide_eq_true (List.all_eq_true.mp hall kv hkv)
      · have hu2 : choropleth_unique_vars viz =
            Except.error (PyErr.keyError k) := by
          rw [choropleth_unique_vars, hvs]
          simp only [if_true]
          rw [hg]
          rfl
        rw [hu2] at hu
        cases hu

/-- Witness for claim C7: with no label property the options bind
`labelProperty` to the `None` marker; with label property `"name"` they bind
it to the brace-wrapped placeholder. -/
theorem claim_C7_label_property_binding_witness :
    (optGet (baseOptions
        { data := [], access_token := "pk.abc", center := (0, 0),
          below_layer := "", opacity := 1, div_id := "map",
          height := "500px", style_url := "s", width := "100%", zoom := 0,
          min_zoom := 0, max_zoom := 24, label_property := none } ++ [])
        "labelProperty" = some TVal.none) ∧
    (optGet (baseOptions
        { data := [], access_token := "pk.abc", center := (0, 0),
          below_layer := "", opacity := 1, div_id := "map",
          height := "500px", style_url := "s", width := "100%", zoom := 0,
          min_zoom := 0, max_zoom := 24,
          label_property := some "name" } ++ [])
        "labelProperty" = some (TVal.str ("\x7b" ++ "name" ++ "\x7d"))) :=
  ⟨((claim_C7_label_property_binding.1
      { data := [], access_token := "pk.abc", center := (0, 0),
        below_layer := "", opacity := 1, div_id := "map",
        height := "500px", style_url := "s", width := "100%", zoom := 0,
        min_zoom := 0, max_zoom := 24, label_property := none }
      [] (by simp) _ rfl).1 rfl),
   ((claim_C7_label_property_binding.1
      { data := [], access_token := "pk.abc", center := (0, 0),
        below_layer := "", opacity := 1, div_id := "map",
        height := "500px", style_url := "s", width := "100%", zoom := 0,
        min_zoom := 0, max_zoom := 24, label_property := some "name" }
      [] (by simp) _ rfl).2 "name" rfl)⟩
